import Mathlib

/-!
Shallow embedding of `starlette/testclient.py` (the requests-based ASGI test
client): the HTTP bridge's `receive`/`send` callables inside
`_ASGIAdapter.send`, the post-exchange response construction, the application
shape detection `_is_asgi3` plus the normalization done by
`TestClient.__init__`, the lifespan handshake `TestClient.wait_startup`, and
the construction-time behaviour of `WebSocketTestSession.__init__`.

Modelling conventions:
* byte strings are `List Nat` (one entry per byte);
* a message key that may be absent is an `Option` field (`none` = key absent);
* Python `assert` failures and raised exceptions are `Except.error` with the
  assertion's message;
* the event-loop blocking performed by `receive` while waiting for
  `response_complete` (a pure concurrency detail) is not modelled: the
  post-completion call simply yields the `http.disconnect` message the code
  returns once the wait ends.
-/

namespace StarletteTestClient

/-- Byte strings, one `Nat` per byte. -/
abbrev Bytes := List Nat

/-! ### The receive side of one HTTP exchange (`_ASGIAdapter.send.receive`) -/

/-- The request body, mirroring the four `isinstance` branches of `receive`:
a `str` body (already utf-8 encoded here), a `None` body, a generator body
(its not-yet-consumed chunks, each already encoded), or a plain bytes body. -/
inductive RequestBody where
  | strBody (bs : Bytes)
  | noneBody
  | generator (chunks : List Bytes)
  | bytesBody (bs : Bytes)
deriving DecidableEq

/-- A message returned by the bridge's `receive` callable.  `more_body` is
`none` when the dictionary has no `more_body` key at all (ASGI applications
interpret an absent key as `False`). -/
inductive ReceiveEvent where
  | httpRequest (body : Bytes) (more_body : Option Bool)
  | httpDisconnect
deriving DecidableEq

/-- The mutable state closed over by `receive`: the remaining request body
(the generator's unconsumed chunks live here) and the `request_complete` /
`response_complete` flags. -/
structure ReceiveState where
  body : RequestBody
  requestComplete : Bool
  responseComplete : Bool
deriving DecidableEq

/-- One call of the `receive` callable (testclient.py lines 169-195).
After `request_complete`, the code waits for `response_complete` and returns
`http.disconnect`; otherwise a generator body yields its next chunk with
`more_body: True`, an exhausted generator yields an empty body with no
`more_body` key and sets `request_complete`, and the str/None/bytes bodies are
returned whole with no `more_body` key. -/
def receive (s : ReceiveState) : ReceiveEvent × ReceiveState :=
  if s.requestComplete then
    (ReceiveEvent.httpDisconnect, s)
  else
    match s.body with
    | RequestBody.generator (c :: rest) =>
        (ReceiveEvent.httpRequest c (some true), { s with body := RequestBody.generator rest })
    | RequestBody.generator [] =>
        (ReceiveEvent.httpRequest [] none, { s with requestComplete := true })
    | RequestBody.strBody bs =>
        (ReceiveEvent.httpRequest bs none, { s with requestComplete := true })
    | RequestBody.noneBody =>
        (ReceiveEvent.httpRequest [] none, { s with requestComplete := true })
    | RequestBody.bytesBody bs =>
        (ReceiveEvent.httpRequest bs none, { s with requestComplete := true })

/-- The sequence of messages the application observes when it calls `receive`
`k` times from state `s`. -/
def receiveTrace : ReceiveState → Nat → List ReceiveEvent
  | _, 0 => []
  | s, Nat.succ k =>
      let p := receive s
      p.1 :: receiveTrace p.2 k

/-- Fresh receive state for a request whose body is a generator of `chunks`. -/
def generatorState (chunks : List Bytes) : ReceiveState :=
  { body := RequestBody.generator chunks, requestComplete := false, responseComplete := false }

/-! ### The send side of one HTTP exchange (`_ASGIAdapter.send.send`) -/

/-- A message the application passes to the bridge's `send` callable.
`responseBody`'s two fields are `none` when the corresponding dictionary key
is absent (the code reads them with `message.get("body", b"")` and
`message.get("more_body", False)`).  `other` stands for any message whose
`type` matches none of the three `if`/`elif` branches; the code falls through
and does nothing for such a message.  Template and context objects are
abstracted to numeric identifiers. -/
inductive SendEvent where
  | responseStart (status : Nat) (headers : List (Bytes × Bytes))
  | responseBody (body : Option Bytes) (more_body : Option Bool)
  | responseTemplate (template : Nat) (context : Nat)
  | other (tag : String)
deriving DecidableEq

/-- The state accumulated by `send`: the `response_started` /
`response_complete` flags, the `raw_kwargs` entries filled in by
`http.response.start` (`none` = key not yet present), the growing body buffer,
and the template/context side channel. -/
structure SendState where
  responseStarted : Bool
  responseComplete : Bool
  status : Option Nat
  headers : Option (List (Bytes × Bytes))
  body : Bytes
  template : Option (Nat × Nat)
deriving DecidableEq

/-- The state at the start of an exchange: no response started, empty body
buffer, no template. -/
def initialSendState : SendState :=
  { responseStarted := false, responseComplete := false, status := none,
    headers := none, body := [], template := none }

/-- One call of the `send` callable (testclient.py lines 197-231) for a
request with the given `method`.  Assertion failures become `Except.error`.
On `http.response.start` the status and headers are recorded as sent (the
code decodes the header bytes to text; decoding keeps the bytes unchanged, so
it is not modelled separately).  On `http.response.body` the chunk is
appended unless the method is HEAD, and an absent/false `more_body` completes
the response.  `http.response.template` merely records the template/context
pair, and a message of any other type is ignored. -/
def send (method : String) (s : SendState) (m : SendEvent) : Except String SendState :=
  match m with
  | SendEvent.responseStart status headers =>
      if s.responseStarted then
        Except.error "Received multiple http.response.start messages."
      else
        Except.ok { s with status := some status, headers := some headers,
                           responseStarted := true }
  | SendEvent.responseBody body more_body =>
      if !s.responseStarted then
        Except.error "Received http.response.body without http.response.start."
      else if s.responseComplete then
        Except.error "Received http.response.body after response completed."
      else
        let b := body.getD []
        let more := more_body.getD false
        let s1 := if method ≠ "HEAD" then { s with body := s.body ++ b } else s
        if !more then Except.ok { s1 with responseComplete := true } else Except.ok s1
  | SendEvent.responseTemplate t c =>
      Except.ok { s with template := some (t, c) }
  | SendEvent.other _ =>
      Except.ok s

/-- Processing of a whole list of application messages by `send`, stopping at
the first assertion failure (which propagates out of the application's
coroutine). -/
def runSend (method : String) : SendState → List SendEvent → Except String SendState
  | s, [] => Except.ok s
  | s, m :: ms =>
      match send method s m with
      | Except.error e => Except.error e
      | Except.ok s1 => runSend method s1 ms

/-! ### Post-exchange response construction (`_ASGIAdapter.send`, lines 239-263) -/

/-- The synchronous response handed back to the caller: status, header pairs
in emission order, body bytes, optional template/context.  The derived
fields of `raw_kwargs` (`version`, always 11; `reason`, a pure lookup of the
status code's standard phrase; the urllib3 plumbing) carry no information
beyond the status and are not modelled. -/
structure Response where
  status : Nat
  headers : List (Bytes × Bytes)
  body : Bytes
  template : Option (Nat × Nat)
deriving DecidableEq

/-- The response built from the accumulated `raw_kwargs` once the exchange is
over (the `getD` defaults are unreachable when a response has started). -/
def buildResponse (s : SendState) : Response :=
  { status := s.status.getD 0, headers := s.headers.getD [], body := s.body,
    template := s.template }

/-- The synthetic response substituted when `raise_server_exceptions` is false
and no `http.response.start` was seen: status 500, empty header list, empty
body (testclient.py lines 247-256). -/
def syntheticResponse : Response :=
  { status := 500, headers := [], body := [], template := none }

/-- How the application's coroutine ended: normally, or by raising. -/
inductive AppOutcome where
  | ok
  | raised (exc : String)
deriving DecidableEq

/-- The code after `loop.run_until_complete` returns without a propagating
exception: with `raise_server_exceptions` true, a missing
`http.response.start` is an assertion failure, otherwise the response is
built; with it false, a missing start yields the synthetic 500 response. -/
def finishNoRaise (raiseServerExceptions : Bool) (s : SendState) : Except String Response :=
  if raiseServerExceptions then
    if s.responseStarted then Except.ok (buildResponse s)
    else Except.error "TestClient did not receive any response."
  else
    if s.responseStarted then Except.ok (buildResponse s)
    else Except.ok syntheticResponse

/-- The whole tail of `_ASGIAdapter.send` (lines 239-263): if the application
raised and `raise_server_exceptions` is true the exception propagates;
otherwise it is swallowed and the response is assembled by `finishNoRaise`. -/
def finishExchange (raiseServerExceptions : Bool) (outcome : AppOutcome)
    (s : SendState) : Except String Response :=
  match outcome with
  | AppOutcome.raised exc =>
      if raiseServerExceptions then Except.error exc
      else finishNoRaise raiseServerExceptions s
  | AppOutcome.ok => finishNoRaise raiseServerExceptions s

/-! ### Application shape detection (`_is_asgi3`, `TestClient.__init__`) -/

/-- The facts about an application value that `_is_asgi3` inspects: whether
it is a class, whether it has an `__await__` attribute, whether it is a plain
function, whether that function is a coroutine function, whether it has a
`__call__` attribute, and whether that attribute is a coroutine function
(`asyncio.iscoroutinefunction(None)` is `False`, so a missing `__call__`
yields `False`). -/
structure AppValue where
  isClass : Bool
  hasAwaitAttr : Bool
  isFunction : Bool
  isCoroutineFn : Bool
  hasCallAttr : Bool
  callIsCoroutineFn : Bool
deriving DecidableEq

/-- `_is_asgi3` (testclient.py lines 68-74). -/
def is_asgi3 (a : AppValue) : Bool :=
  if a.isClass then a.hasAwaitAttr
  else if a.isFunction then a.isCoroutineFn
  else a.hasCallAttr && a.callIsCoroutineFn

/-- The outcome of `TestClient.__init__`'s normalization: the value is used
as-is as an ASGI3 app, or wrapped in `_WrapASGI2`. -/
inductive NormalizedApp where
  | canonical (a : AppValue)
  | wrappedAsgi2 (a : AppValue)
deriving DecidableEq

/-- The app normalization inside `TestClient.__init__` (testclient.py lines
376-381): if `_is_asgi3` holds the value is used directly, otherwise it is
unconditionally wrapped as a legacy ASGI2 app.  The `Except` codomain records
that construction could in principle raise; this code path never does. -/
def testClientNormalize (a : AppValue) : Except String NormalizedApp :=
  Except.ok (if is_asgi3 a then NormalizedApp.canonical a else NormalizedApp.wrappedAsgi2 a)

/-- Modelled from the spec: the legacy 2-step shape (`app(scope)` returning an
invocable taking `(receive, send)`) is determinable by inspecting the declared
calling convention only when the value is invocable at all — a class, a
function, or an object with a `__call__` attribute. -/
def legacyShapeDeterminable (a : AppValue) : Bool :=
  a.isClass || a.isFunction || a.hasCallAttr

/-! ### Lifespan startup handshake (`TestClient.wait_startup`) -/

/-- A lifespan message deposited by the application into the send queue,
identified by its `type` key.  `other` covers any other `type` value. -/
inductive LifespanMsg where
  | startupComplete
  | startupFailed
  | shutdownComplete
  | other (tag : String)
deriving DecidableEq

/-- How the lifespan task ended (`task.result()` behaviour): `completed`
means `result()` returns without raising, `failed e` means it raises `e`. -/
inductive TaskResult where
  | completed
  | failed (exc : String)
deriving DecidableEq

/-- `self.task.result()`: re-raises the task's exception if it raised. -/
def taskResultCall (t : TaskResult) : Except String Unit :=
  match t with
  | TaskResult.completed => Except.ok ()
  | TaskResult.failed e => Except.error e

/-- `TestClient.wait_startup` (testclient.py lines 473-485) as a function of
the contents of the outbound queue, in arrival order, and of the task's fate.
An item is `none` when it is the `None` sentinel enqueued by `lifespan`'s
`finally` block.  The result is `none` when the coroutine would block forever
on an empty queue, which cannot happen in a real run because the sentinel
always arrives; otherwise `some (Except.ok ())` for a normal return and
`some (Except.error e)` for a raised exception.  Getting the sentinel first
calls `task.result()` and then crashes subscripting `None` if the task ended
cleanly; after a `lifespan.startup.failed` message a second item is read, and
only a sentinel followed by a failed task surfaces anything. -/
def wait_startup (q : List (Option LifespanMsg)) (t : TaskResult) :
    Option (Except String Unit) :=
  match q with
  | [] => none
  | none :: _ =>
      match taskResultCall t with
      | Except.error e => some (Except.error e)
      | Except.ok _ => some (Except.error "TypeError: NoneType is not subscriptable")
  | some msg :: rest =>
      match msg with
      | LifespanMsg.startupComplete => some (Except.ok ())
      | LifespanMsg.startupFailed =>
          match rest with
          | [] => none
          | none :: _ =>
              match taskResultCall t with
              | Except.error e => some (Except.error e)
              | Except.ok _ => some (Except.ok ())
          | some _ :: _ => some (Except.ok ())
      | _ => some (Except.error "AssertionError: unexpected lifespan message type")

/-! ### WebSocket session construction (`WebSocketTestSession.__init__`) -/

/-- The first message the application deposits on the session's send queue,
as inspected by `__init__`: its `type` key, an optional `code` key and an
optional `subprotocol` key (`none` = key absent). -/
structure WsOutMsg where
  type : String
  code : Option Nat
  subprotocol : Option String
deriving DecidableEq

/-- The outcome of `WebSocketTestSession.__init__` after the first outbound
message arrives: a `WebSocketDisconnect` with the close code, or a live
session recording the accepted subprotocol. -/
inductive WsInitResult where
  | disconnected (code : Nat)
  | connected (acceptedSubprotocol : Option String)
deriving DecidableEq

/-- The tail of `WebSocketTestSession.__init__` (testclient.py lines 274-278
with `_raise_on_close`, lines 314-316): the constructor enqueues
`websocket.connect`, starts the application thread, receives the first
outbound message, raises `WebSocketDisconnect(message.get("code", 1000))` if
its type is `websocket.close` — before the constructor ever returns a session
the caller could `send` on — and otherwise records
`message.get("subprotocol", None)`. -/
def wsSessionInit (firstMessage : WsOutMsg) : WsInitResult :=
  if firstMessage.type = "websocket.close" then
    WsInitResult.disconnected (firstMessage.code.getD 1000)
  else
    WsInitResult.connected firstMessage.subprotocol

/-! ### Spec-side definitions used to state claims -/

/-- Modelled from the spec: ASCII lower-casing of one byte, to state the
claim that response header names come back lower-cased. -/
def spec_lowerByte (b : Nat) : Nat :=
  if 65 ≤ b ∧ b ≤ 90 then b + 32 else b

/-- Modelled from the spec: a header pair with its name lower-cased. -/
def spec_lowerName (h : Bytes × Bytes) : Bytes × Bytes :=
  (h.1.map spec_lowerByte, h.2)

/-! ### Concrete example values used by witnesses and counterexamples -/

/-- An application value that is not a class, not a function and has no
`__call__` attribute (e.g. an integer): neither ASGI shape is determinable. -/
def undetectableApp : AppValue :=
  { isClass := false, hasAwaitAttr := false, isFunction := false,
    isCoroutineFn := false, hasCallAttr := false, callIsCoroutineFn := false }

/-- The send state after `http.response.start(200, [])` followed by a final
one-byte body chunk: a completed response. -/
def completedExample : SendState :=
  { responseStarted := true, responseComplete := true, status := some 200,
    headers := some [], body := [1], template := none }

/-- A send state where the response has started but is not yet complete. -/
def startedExample : SendState :=
  { responseStarted := true, responseComplete := false, status := some 200,
    headers := some [], body := [5], template := none }

/-- The send state reached by a HEAD exchange that tried to emit body bytes:
the buffer stays empty. -/
def headFinalState : SendState :=
  { responseStarted := true, responseComplete := true, status := some 200,
    headers := some [], body := [], template := none }

/-! ### Helper lemmas -/

/-- A `runSend` that never saw `http.response.start` leaves
`responseStarted` false. -/
theorem runSend_no_start_responseStarted (method : String) (msgs : List SendEvent) :
    ∀ s s1 : SendState, runSend method s msgs = Except.ok s1 →
      (∀ m ∈ msgs, ∀ st hs, m ≠ SendEvent.responseStart st hs) →
      s.responseStarted = false → s1.responseStarted = false := by
  induction msgs with
  | nil =>
      intro s s1 hrun _ hstart
      simp [runSend] at hrun
      simpa [← hrun] using hstart
  | cons m ms ih =>
      intro s s1 hrun hno hstart
      match m with
      | SendEvent.responseStart st hs =>
          exact absurd rfl (hno _ (List.mem_cons_self _ _) st hs)
      | SendEvent.responseBody b mb =>
          rw [runSend, send] at hrun
          rw [hstart] at hrun
          simp at hrun
      | SendEvent.responseTemplate t c =>
          rw [runSend, send] at hrun
          exact ih _ _ hrun (fun m hm => hno m (List.mem_cons_of_mem _ hm)) hstart
      | SendEvent.other tag =>
          rw [runSend, send] at hrun
          exact ih _ _ hrun (fun m hm => hno m (List.mem_cons_of_mem _ hm)) hstart

/-- `send` never changes the body buffer of a HEAD request. -/
theorem send_head_body (s s1 : SendState) (m : SendEvent)
    (h : send "HEAD" s m = Except.ok s1) : s1.body = s.body := by
  match m with
  | SendEvent.responseStart st hs =>
      rw [send] at h
      by_cases hst : s.responseStarted
      · simp [hst] at h
      · simp [hst] at h
        rw [← h]
  | SendEvent.responseBody b mb =>
      rw [send] at h
      by_cases hst : s.responseStarted
      · by_cases hc : s.responseComplete
        · simp [hst, hc] at h
        · simp [hst, hc] at h
          by_cases hm : mb.getD false
          · simp [hm] at h
            rw [← h]
          · simp [hm] at h
            rw [← h]
      · simp [hst] at h
  | SendEvent.responseTemplate t c =>
      rw [send] at h
      simp at h
      rw [← h]
  | SendEvent.other tag =>
      rw [send] at h
      simp at h
      rw [← h]

/-- `runSend` never changes the body buffer of a HEAD request. -/
theorem runSend_head_body (msgs : List SendEvent) :
    ∀ s s1 : SendState, runSend "HEAD" s msgs = Except.ok s1 → s1.body = s.body := by
  induction msgs with
  | nil =>
      intro s s1 hrun
      simp [runSend] at hrun
      rw [← hrun]
  | cons m ms ih =>
      intro s s1 hrun
      rw [runSend] at hrun
      match hsend : send "HEAD" s m with
      | Except.error e => rw [hsend] at hrun; simp at hrun
      | Except.ok s2 =>
          rw [hsend] at hrun
          rw [ih _ _ hrun, send_head_body s s2 m hsend]

/-! ### Claim C1 -/

/-- Claim C1 as frozen is false on the code: for the one-chunk generator body
whose only chunk is the byte string `[7]`, driving `receive` to request
completion produces two `http.request` events — the chunk with
`more_body=true` and then an empty-body event with no `more_body` key — not
one event carrying the chunk with `more_body=false`. -/
theorem c1_counterexample :
    receiveTrace (generatorState [[7]]) 2
      = [ReceiveEvent.httpRequest [7] (some true), ReceiveEvent.httpRequest [] none]
    ∧ receiveTrace (generatorState [[7]]) 2
      ≠ [ReceiveEvent.httpRequest [7] (some false)] :=
  ⟨rfl, by decide⟩

/-- Claim C1 amended: for a generator body yielding chunks `c1..cn`, the
application observes `n + 1` `http.request` events — the `n` chunks in
original order, each with `more_body=true`, followed by one event with empty
body and no `more_body` key (read as false by applications). -/
theorem c1_generator_events (chunks : List Bytes) :
    receiveTrace (generatorState chunks) (chunks.length + 1)
      = chunks.map (fun c => ReceiveEvent.httpRequest c (some true))
        ++ [ReceiveEvent.httpRequest [] none] := by
  induction chunks with
  | nil => rfl
  | cons c rest ih =>
      have h1 : receiveTrace (generatorState (c :: rest)) ((c :: rest).length + 1)
          = ReceiveEvent.httpRequest c (some true)
            :: receiveTrace (generatorState rest) (rest.length + 1) := rfl
      rw [h1, ih]
      rfl

/-! ### Claim C2 -/

/-- Claim C2 as frozen is false on the code: the adapter does not lower-case
response header names.  For the exchange `start(200, [("X", "x")])`,
`body([1], more)`, `body([2], last)` (header name `X` = byte 88), the
recorded headers keep byte 88, which differs from the lower-cased form the
claim demands (byte 120). -/
theorem c2_counterexample :
    runSend "GET" initialSendState
        [SendEvent.responseStart 200 [([88], [120])],
         SendEvent.responseBody (some [1]) (some true),
         SendEvent.responseBody (some [2]) (some false)]
      = Except.ok { responseStarted := true, responseComplete := true,
                    status := some 200, headers := some [([88], [120])],
                    body := [1, 2], template := none }
    ∧ [([88], [120])] ≠ [([88], [120])].map spec_lowerName :=
  ⟨rfl, by decide⟩

/-- Claim C2 amended: for an exchange sending `http.response.start(S, H)`
then body chunks `b1` (more-body true) and `b2` (more-body false), the
response has status `S`, headers byte-identical to `H` with order preserved
(no lower-casing is applied to the names), and body `b1 ++ b2` — except that
a HEAD request's body is discarded, leaving an empty body. -/
theorem c2_exchange (method : String) (S : Nat) (H : List (Bytes × Bytes))
    (b1 b2 : Bytes) :
    (runSend method initialSendState
        [SendEvent.responseStart S H,
         SendEvent.responseBody (some b1) (some true),
         SendEvent.responseBody (some b2) (some false)]).map buildResponse
      = Except.ok { status := S, headers := H,
                    body := if method = "HEAD" then [] else b1 ++ b2,
                    template := none } := by
  by_cases h : method = "HEAD"
  · subst h
    simp [runSend, send, initialSendState, buildResponse, Except.map]
  · simp [runSend, send, initialSendState, buildResponse, Except.map, h]

/-! ### Claim C3 -/

/-- Claim C3: with `raise_server_exceptions=false`, an application failure
before any `http.response.start` yields the synthetic response (status 500,
empty headers, empty body) instead of propagating; with
`raise_server_exceptions=true`, the failure propagates whatever the state,
and a clean exchange that never started a response is itself the assertion
failure `TestClient did not receive any response.`. -/
theorem c3_raise_server_exceptions (e : String) (s s2 : SendState)
    (hns : s.responseStarted = false) :
    finishExchange false (AppOutcome.raised e) s = Except.ok syntheticResponse
    ∧ finishExchange true (AppOutcome.raised e) s2 = Except.error e
    ∧ finishExchange true AppOutcome.ok s
        = Except.error "TestClient did not receive any response." := by
  refine ⟨?_, rfl, ?_⟩
  · simp [finishExchange, finishNoRaise, hns]
  · simp [finishExchange, finishNoRaise, hns]

/-- Witness for C3 at the fresh exchange state and the failure `boom`. -/
theorem c3_witness :
    finishExchange false (AppOutcome.raised "boom") initialSendState
      = Except.ok syntheticResponse
    ∧ finishExchange true (AppOutcome.raised "boom") initialSendState
      = Except.error "boom"
    ∧ finishExchange true AppOutcome.ok initialSendState
        = Except.error "TestClient did not receive any response." :=
  c3_raise_server_exceptions "boom" initialSendState initialSendState rfl

/-! ### Claim C4 -/

/-- Claim C4 as frozen is false on the code: for a value with neither the
canonical ASGI3 shape nor a determinable legacy shape (not a class, not a
function, no `__call__`), `TestClient.__init__` does not raise — it silently
wraps the value as a legacy ASGI2 app, deferring any failure to first use. -/
theorem c4_counterexample :
    is_asgi3 undetectableApp = false
    ∧ legacyShapeDeterminable undetectableApp = false
    ∧ testClientNormalize undetectableApp
        = Except.ok (NormalizedApp.wrappedAsgi2 undetectableApp) :=
  ⟨rfl, rfl, rfl⟩

/-- Claim C4 amended: construction never fails for an undetectable
application value; every value not classified as ASGI3 — including those
whose legacy shape is not determinable either — is wrapped as an ASGI2 app
and the error is deferred to first use. -/
theorem c4_no_construction_failure (a : AppValue) (h : is_asgi3 a = false) :
    testClientNormalize a = Except.ok (NormalizedApp.wrappedAsgi2 a) := by
  simp [testClientNormalize, h]

/-- Witness for C4 at the undetectable application value. -/
theorem c4_witness :
    testClientNormalize undetectableApp
      = Except.ok (NormalizedApp.wrappedAsgi2 undetectableApp) :=
  c4_no_construction_failure undetectableApp rfl

/-! ### Claim C5 -/

/-- Claim C5 as frozen is false on the code: an application that emits
`lifespan.startup.failed` and then terminates without raising (so the `None`
sentinel follows and `task.result()` returns cleanly) makes `wait_startup`
return normally — no failure is surfaced to the caller. -/
theorem c5_counterexample :
    wait_startup [some LifespanMsg.startupFailed, none] TaskResult.completed
      = some (Except.ok ()) :=
  rfl

/-- Claim C5 amended: after a `lifespan.startup.failed` message followed by
the sentinel, `wait_startup` surfaces a failure exactly when the
application's task raised — the task's exception is re-raised; when the task
terminated without raising, `wait_startup` returns normally and no failure
is surfaced. -/
theorem c5_startup_failed (e : String) (rest : List (Option LifespanMsg)) :
    wait_startup (some LifespanMsg.startupFailed :: none :: rest) (TaskResult.failed e)
      = some (Except.error e)
    ∧ wait_startup (some LifespanMsg.startupFailed :: none :: rest) TaskResult.completed
      = some (Except.ok ()) :=
  ⟨rfl, rfl⟩

/-! ### Claim C6 -/

/-- Claim C6 as frozen is false on the code: after a completed response
(reachable by `start(200, [])` then a final body chunk), an
`http.response.template` message is accepted without any assertion failure —
it is not true that every message type raises after completion. -/
theorem c6_counterexample :
    runSend "GET" initialSendState
        [SendEvent.responseStart 200 [], SendEvent.responseBody (some [1]) (some false)]
      = Except.ok completedExample
    ∧ send "GET" completedExample (SendEvent.responseTemplate 7 9)
      = Except.ok { completedExample with template := some (7, 9) } :=
  ⟨rfl, rfl⟩

/-- Claim C6 amended: after the response has completed, `http.response.start`
and `http.response.body` messages raise fail-fast assertion failures, but
`http.response.template` messages are still accepted (recording the
template/context pair) and messages of unrecognized type are silently
ignored. -/
theorem c6_after_completion (method : String) (s : SendState)
    (hst : s.responseStarted = true) (hc : s.responseComplete = true)
    (st : Nat) (hs : List (Bytes × Bytes)) (b : Option Bytes) (mb : Option Bool)
    (t c : Nat) (tag : String) :
    send method s (SendEvent.responseStart st hs)
      = Except.error "Received multiple http.response.start messages."
    ∧ send method s (SendEvent.responseBody b mb)
      = Except.error "Received http.response.body after response completed."
    ∧ send method s (SendEvent.responseTemplate t c)
      = Except.ok { s with template := some (t, c) }
    ∧ send method s (SendEvent.other tag) = Except.ok s := by
  refine ⟨?_, ?_, rfl, rfl⟩
  · simp [send, hst]
  · simp [send, hst, hc]

/-- Witness for C6 at the completed example state. -/
theorem c6_witness :
    send "GET" completedExample (SendEvent.responseStart 200 [])
      = Except.error "Received multiple http.response.start messages."
    ∧ send "GET" completedExample (SendEvent.responseBody none none)
      = Except.error "Received http.response.body after response completed."
    ∧ send "GET" completedExample (SendEvent.responseTemplate 7 9)
      = Except.ok { completedExample with template := some (7, 9) }
    ∧ send "GET" completedExample (SendEvent.other "http.unknown")
      = Except.ok completedExample :=
  c6_after_completion "GET" completedExample rfl rfl 200 [] none none 7 9 "http.unknown"

/-! ### Claim C7 -/

/-- Claim C7: in any exchange whose messages so far contained no
`http.response.start`, sending an `http.response.body` message raises the
protocol-violation assertion, whatever the ordering of the other messages. -/
theorem c7_body_before_start (method : String) (msgs : List SendEvent)
    (s : SendState)
    (hrun : runSend method initialSendState msgs = Except.ok s)
    (hno : ∀ m ∈ msgs, ∀ st hs, m ≠ SendEvent.responseStart st hs)
    (b : Option Bytes) (mb : Option Bool) :
    send method s (SendEvent.responseBody b mb)
      = Except.error "Received http.response.body without http.response.start." := by
  have h := runSend_no_start_responseStarted method msgs initialSendState s hrun hno rfl
  simp [send, h]

/-- Witness for C7: the very first message being a body chunk is rejected. -/
theorem c7_witness :
    send "GET" initialSendState (SendEvent.responseBody (some [1]) (some true))
      = Except.error "Received http.response.body without http.response.start." :=
  c7_body_before_start "GET" [] initialSendState rfl (by simp) (some [1]) (some true)

/-! ### Claim C8 -/

/-- Claim C8: for a HEAD request, whatever messages the application emits,
any state its exchange reaches has an empty body buffer, so the resulting
synchronous response body is empty. -/
theorem c8_head_empty_body (msgs : List SendEvent) (s : SendState)
    (hrun : runSend "HEAD" initialSendState msgs = Except.ok s) :
    s.body = [] ∧ (buildResponse s).body = [] := by
  have h : s.body = initialSendState.body := runSend_head_body msgs initialSendState s hrun
  exact ⟨h, h⟩

/-- Witness for C8: a HEAD exchange whose application emits a two-byte body
chunk still ends with an empty body buffer. -/
theorem c8_witness :
    headFinalState.body = [] ∧ (buildResponse headFinalState).body = [] :=
  c8_head_empty_body
    [SendEvent.responseStart 200 [], SendEvent.responseBody (some [1, 2]) (some false)]
    headFinalState rfl

/-! ### Claim C9 -/

/-- Claim C9: a session whose application's first outbound message is
`websocket.close` with code 1008 fails construction with a disconnect
carrying 1008, before any send by the caller is possible; when the first
message is not a close, construction records that message's subprotocol (if
any) as the accepted subprotocol. -/
theorem c9_ws_init (m : WsOutMsg) (hm : m.type ≠ "websocket.close") :
    wsSessionInit { type := "websocket.close", code := some 1008, subprotocol := none }
      = WsInitResult.disconnected 1008
    ∧ wsSessionInit m = WsInitResult.connected m.subprotocol := by
  refine ⟨rfl, ?_⟩
  simp [wsSessionInit, hm]

/-- Witness for C9 at a close message with code 1008 and an accept message
carrying the subprotocol `graphql`. -/
theorem c9_witness :
    wsSessionInit { type := "websocket.close", code := some 1008, subprotocol := none }
      = WsInitResult.disconnected 1008
    ∧ wsSessionInit { type := "websocket.accept", code := none, subprotocol := some "graphql" }
      = WsInitResult.connected (some "graphql") :=
  c9_ws_init { type := "websocket.accept", code := none, subprotocol := some "graphql" }
    (by decide)

/-! ### Claim C10 -/

/-- Claim C10: after a valid `http.response.start`, a bare
`http.response.body` message with neither a `body` nor a `more_body` key
completes the response without appending any bytes: the state is unchanged
except that `response_complete` becomes true. -/
theorem c10_bare_body_event (method : String) (s : SendState)
    (hst : s.responseStarted = true) (hc : s.responseComplete = false) :
    send method s (SendEvent.responseBody none none)
      = Except.ok { s with responseComplete := true } := by
  cases s with
  | mk rs rc st hd bd tp =>
      simp at hst hc
      subst hst
      subst hc
      by_cases h : method = "HEAD"
      · subst h
        simp [send]
      · simp [send, h]

/-- Witness for C10 at a started, incomplete state with a non-empty buffer. -/
theorem c10_witness :
    send "GET" startedExample (SendEvent.responseBody none none)
      = Except.ok { startedExample with responseComplete := true } :=
  c10_bare_body_event "GET" startedExample rfl rfl

end StarletteTestClient
